import Mathlib

/-!
Shallow embedding of the push-to-gdrive uploader
(src/push-to-gdrive/google_drive_uploader.py and
src/push-to-gdrive/upload_to_subfolder.py).

The remote Drive API is modelled by the in-memory fake the spec's
testable properties describe: a list of folders, a list of uploaded
files, a fresh-id counter, and a set of file names on which the fake
upload raises an HTTP error.  Local files (settings.json, token.json,
the directory being uploaded) are modelled explicitly.  Python
exceptions are modelled by an `Except PyErr` channel; a `try/except`
block in the source becomes a `match` on that channel.
-/

/-- A JSON value as stored in settings.json.  Nested arrays/objects are

modelled; numbers are integers (the settings file only ever holds
strings, so this loses nothing relevant). -/
inductive JVal where
  | str : String → JVal
  | num : Int → JVal
  | bool : Bool → JVal
  | null : JVal
deriving DecidableEq, Repr

/-- Python truthiness of a JSON value (`if target_folder:` etc.). -/
def JVal.truthy : JVal → Bool
  | .str s => !(s == "")
  | .num n => !(n == 0)
  | .bool b => b
  | .null => false

/-- Python truthiness of an optional string (`if file_path:` where
`file_path : str = None`). -/
def strOptTruthy : Option String → Bool
  | some s => !(s == "")
  | none => false

/-- Python truthiness of an optional JSON value (None is falsy). -/
def jOptTruthy : Option JVal → Bool
  | some v => v.truthy
  | none => false

/-- `os.path.basename` for forward-slash paths: the part after the last
separator. -/
def basename (p : String) : String := (p.splitOn "/").getLastD p

/-- Content of settings.json: absent file, a file that `json.load`
fails on, or a parsed JSON object (association list, first key wins on
lookup as in a Python dict). -/
inductive SettingsFile where
  | absent : SettingsFile
  | malformed : SettingsFile
  | obj : List (String × JVal) → SettingsFile
deriving DecidableEq, Repr

/-- Lookup in a parsed JSON object (Python `dict.get`). -/
def lookupKV : List (String × JVal) → String → Option JVal
  | [], _ => none
  | (k1, v1) :: rest, k => if k1 == k then some v1 else lookupKV rest k

/-- Python `settings[k] = v`: replace the value in place if the key is
present, otherwise append the new key. -/
def setKV : List (String × JVal) → String → JVal → List (String × JVal)
  | [], k, v => [(k, v)]
  | (k1, v1) :: rest, k, v =>
    if k1 == k then (k, v) :: rest else (k1, v1) :: setKV rest k v

/-- Lookup of a key in a settings file (no keys are observable in an
absent or malformed file). -/
def settingsLookup : SettingsFile → String → Option JVal
  | .obj kvs, k => lookupKV kvs k
  | _, _ => none

/-- OAuth credentials as used by the uploader: access token, the
`valid` / `expired` flags, and an optional refresh token. -/
structure Creds where
  token : String
  valid : Bool
  expired : Bool
  refresh_token : Option String
deriving DecidableEq, Repr

/-- Python truthiness of `creds.refresh_token`. -/
def Creds.hasRefresh (c : Creds) : Bool := strOptTruthy c.refresh_token

/-- A folder recorded in the fake Drive store. -/
structure DriveFolder where
  id : String
  name : String
  parent : Option String
  trashed : Bool
deriving DecidableEq, Repr

/-- A file recorded by the fake Drive store on upload.  `parent` is the
JSON value placed in the request metadata's parents list. -/
structure MockFile where
  id : String
  name : String
  parent : Option JVal
  mime : String
deriving DecidableEq, Repr

/-- The fake remote Drive store: folders, uploaded files, a fresh-id
counter, and the file names on which the fake upload raises HttpError
(the spec's "fake client failing on specific names"). -/
structure DriveState where
  folders : List DriveFolder
  files : List MockFile
  nextId : Nat
  uploadFail : List String
deriving DecidableEq, Repr

/-- An entry of the local filesystem: a name inside a directory,
flagged as a plain file or not (`Path.is_file`). -/
structure LocalEntry where
  dir : String
  name : String
  isFile : Bool
deriving DecidableEq, Repr

/-- Full path of a local entry (`str(file_path)` for `Path(dir)/name`). -/
def fullPath (e : LocalEntry) : String := e.dir ++ "/" ++ e.name

/-- The local filesystem: existing directories and their entries. -/
structure LocalFS where
  dirs : List String
  entries : List LocalEntry
deriving DecidableEq, Repr

/-- `os.path.exists`. -/
def fsExists (fs : LocalFS) (p : String) : Bool :=
  fs.entries.any (fun e => fullPath e == p) || fs.dirs.contains p

/-- Whether a path names a plain file (MediaFileUpload succeeds). -/
def fsIsFile (fs : LocalFS) (p : String) : Bool :=
  fs.entries.any (fun e => fullPath e == p && e.isFile)

/-- The ambient environment: the local filesystem, the fake OAuth
refresh endpoint, and whether building the Drive service handle
succeeds. -/
structure Env where
  fs : LocalFS
  refreshOk : Bool
  newToken : String
  buildOk : Bool
deriving DecidableEq, Repr

/-- The mutable state of a GoogleDriveUploader instance together with
the files it reads/writes and the fake remote store. -/
structure UState where
  creds : Option Creds
  tokenFile : Option Creds
  settingsFile : SettingsFile
  default_folder_id : Option JVal
  service : Bool
  drive : DriveState
deriving DecidableEq, Repr

/-- A Python exception, by kind and message. -/
inductive PyErr where
  | exc : String → PyErr
  | valueError : String → PyErr
  | fileNotFound : String → PyErr
  | httpError : String → PyErr
deriving DecidableEq, Repr

/-- The `str(e)` of an exception. -/
def PyErr.msg : PyErr → String
  | .exc m => m
  | .valueError m => m
  | .fileNotFound m => m
  | .httpError m => m

/-- `_load_default_folder` (google_drive_uploader.py lines 38-47):
read settings.json, return `settings.get('default_folder_id')`; a
missing or unparseable file yields None.  A stored JSON null also comes
back as Python None and is therefore collapsed to `none`. -/
def load_default_folder (sf : SettingsFile) : Option JVal :=
  match sf with
  | .absent => none
  | .malformed => none
  | .obj kvs =>
    match lookupKV kvs "default_folder_id" with
    | some .null => none
    | v => v

/-- `save_default_folder` (lines 49-65): re-read settings.json (a
missing or unparseable file becomes the empty dict), set
`default_folder_id`, write the file back, and update the in-memory
default. -/
def save_default_folder (s : UState) (folder_id : String) : UState :=
  let kvs := match s.settingsFile with
    | .obj kvs => kvs
    | _ => []
  { s with settingsFile := .obj (setKV kvs "default_folder_id" (.str folder_id)),
           default_folder_id := some (.str folder_id) }

/-- `load_credentials` (lines 67-75): read token.json into `self.creds`
and return them; a missing file returns None and leaves the state
alone. -/
def load_credentials (s : UState) : Option Creds × UState :=
  match s.tokenFile with
  | some c => (some c, { s with creds := some c })
  | none => (none, s)

/-- `save_credentials` (lines 77-81): write credentials to token.json. -/
def save_credentials (c : Creds) (s : UState) : UState :=
  { s with tokenFile := some c }

/-- The credentials produced by a successful refresh against the fake
token endpoint: fresh access token, valid, not expired. -/
def refreshedCreds (env : Env) (c : Creds) : Creds :=
  { c with token := env.newToken, valid := true, expired := false }

/-- `refresh_credentials` (lines 83-93): when credentials are present,
expired and carry a refresh token, call the token endpoint; on success
persist via `save_credentials` and return True, on an endpoint failure
the exception is caught and False is returned; otherwise False. -/
def refresh_credentials (env : Env) (s : UState) : Bool × UState :=
  match s.creds with
  | some c =>
    if c.expired && c.hasRefresh then
      if env.refreshOk then
        let c1 := refreshedCreds env c
        (true, save_credentials c1 { s with creds := some c1 })
      else (false, s)
    else (false, s)
  | none => (false, s)

/-- `is_authenticated` (lines 95-106): lazily load credentials, accept
valid ones, try a refresh for expired ones with a refresh token,
otherwise report False. -/
def is_authenticated (env : Env) (s : UState) : Bool × UState :=
  let s1 := if s.creds.isNone then (load_credentials s).2 else s
  match s1.creds with
  | some c =>
    if c.valid then (true, s1)
    else if c.expired && c.hasRefresh then refresh_credentials env s1
    else (false, s1)
  | none => (false, s1)

/-- `get_service` (lines 108-116): build the service handle on first
use when authenticated; a build failure is logged and re-raised; the
current handle (possibly absent) is returned. -/
def get_service (env : Env) (s : UState) : Except PyErr Bool × UState :=
  if s.service then (.ok true, s)
  else
    let (auth, s1) := is_authenticated env s
    if auth then
      if env.buildOk then (.ok true, { s1 with service := true })
      else (.error (.exc "service build failed"), s1)
    else (.ok false, s1)

/-- An id/name pair returned by the folder APIs. -/
structure IdName where
  id : String
  name : String
deriving DecidableEq, Repr

/-- Stable insertion sort by name (the `orderBy='name'` of the folder
listing). -/
def insertByName (f : IdName) : List IdName → List IdName
  | [] => [f]
  | g :: rest =>
    if f.name ≤ g.name then f :: g :: rest else g :: insertByName f rest

/-- Sort folder listings by name. -/
def sortByName : List IdName → List IdName
  | [] => []
  | f :: rest => insertByName f (sortByName rest)

/-- `list_folders` (lines 118-143): require a service (raising
"Not authenticated" otherwise), query non-trashed folders optionally
scoped to a parent, ordered by name; remote errors are logged and
re-raised. -/
def list_folders (env : Env) (s : UState) (parent_id : Option String) :
    Except PyErr (List IdName) × UState :=
  match get_service env s with
  | (.error e, s1) => (.error e, s1)
  | (.ok b, s1) =>
    if !b then (.error (.exc "Not authenticated"), s1)
    else
      let fs := s1.drive.folders.filter fun f =>
        !f.trashed && (match parent_id with
          | some p => f.parent == some p
          | none => true)
      (.ok (sortByName (fs.map fun f => ⟨f.id, f.name⟩)), s1)

/-- The id the fake store assigns to the next created folder. -/
def freshFolderId (d : DriveState) : String := "folder_" ++ toString d.nextId

/-- The fake store's `files().create` for a folder: record it
non-trashed under the requested parent and bump the id counter. -/
def driveCreateFolder (d : DriveState) (name : String) (parent : Option String) :
    DriveState :=
  { d with folders := d.folders ++ [⟨freshFolderId d, name, parent, false⟩],
           nextId := d.nextId + 1 }

/-- `create_folder` (lines 145-173): require a service (raising
"Not authenticated" otherwise) and create a folder-type entry, with the
parent attached only when the argument is truthy. -/
def create_folder (env : Env) (s : UState) (name : String) (parent_id : Option String) :
    Except PyErr IdName × UState :=
  match get_service env s with
  | (.error e, s1) => (.error e, s1)
  | (.ok b, s1) =>
    if !b then (.error (.exc "Not authenticated"), s1)
    else
      let parent := if strOptTruthy parent_id then parent_id else none
      (.ok ⟨freshFolderId s1.drive, name⟩,
       { s1 with drive := driveCreateFolder s1.drive name parent })

/-- Target folder resolution inside `upload_file` (lines 205-211):
`folder_id or self.default_folder_id`, then attach it as the parent
only when truthy. -/
def resolve_target (folder_id : Option String) (default : Option JVal) : Option JVal :=
  let t := if strOptTruthy folder_id then folder_id.map JVal.str else default
  match t with
  | some v => if v.truthy then some v else none
  | none => none

/-- The web view link the fake store assigns to an uploaded file. -/
def mockLink (fid : String) : String := "https://drive.example.com/view/" ++ fid

/-- The fake store's `files().create` for a media upload: raise
HttpError for file names on its failure list, otherwise record the
file, assign a fresh id and a view link, and answer with the requested
fields. -/
def driveUpload (d : DriveState) (name : String) (parent : Option JVal) (mime : String) :
    Except PyErr (String × String × String) × DriveState :=
  if d.uploadFail.contains name then
    (.error (.httpError ("upload failed for " ++ name)), d)
  else
    let fid := "file_" ++ toString d.nextId
    (.ok (fid, name, mockLink fid),
     { d with files := d.files ++ [⟨fid, name, parent, mime⟩], nextId := d.nextId + 1 })

/-- The body of `upload_file`'s try block (lines 194-226): resolve the
service, determine the file name (basename of the path, or the
explicit name required for a stream), resolve the target folder, check
the local path, and perform the fake upload.  A stream upload given as
None fails inside the media wrapper (the client library seeks on the
stream), modelled as a generic exception. -/
def upload_file_attempt (env : Env) (s : UState) (file_path : Option String)
    (file_stream : Bool) (file_name : Option String) (mime_type : String)
    (folder_id : Option String) :
    Except PyErr (String × String × String) × UState :=
  match get_service env s with
  | (.error e, s1) => (.error e, s1)
  | (.ok b, s1) =>
    if !b then (.error (.exc "Not authenticated"), s1)
    else if strOptTruthy file_path then
      let p := file_path.getD ""
      let name := if strOptTruthy file_name then file_name.getD "" else basename p
      let target := resolve_target folder_id s1.default_folder_id
      if !fsExists env.fs p then
        (.error (.fileNotFound ("File not found: " ++ p)), s1)
      else if !fsIsFile env.fs p then
        (.error (.exc ("IsADirectoryError: " ++ p)), s1)
      else
        let (r, d1) := driveUpload s1.drive name target mime_type
        (r, { s1 with drive := d1 })
    else if !strOptTruthy file_name then
      (.error (.valueError "file_name is required when using file_stream"), s1)
    else if !file_stream then
      (.error (.exc "AttributeError: NoneType object has no attribute seek"), s1)
    else
      let name := file_name.getD ""
      let target := resolve_target folder_id s1.default_folder_id
      let (r, d1) := driveUpload s1.drive name target mime_type
      (r, { s1 with drive := d1 })

/-- The result dictionary returned by `upload_file`: the keys that are
present are the `some` fields. -/
structure UploadResult where
  success : Bool
  file_id : Option String
  file_name : Option String
  web_view_link : Option String
  error : Option String
deriving DecidableEq, Repr

/-- The error string the except blocks of `upload_file` put into the
result (lines 237-244): HttpError and any other exception get distinct
prefixes. -/
def uploadErrMsg : PyErr → String
  | .httpError m => "HTTP error uploading file: " ++ m
  | e => "Error uploading file: " ++ e.msg

/-- `upload_file` (lines 175-244): run the try body and catch every
exception into a success=False result, so the call itself always
returns a dictionary. -/
def upload_file (env : Env) (s : UState) (file_path : Option String)
    (file_stream : Bool) (file_name : Option String) (mime_type : String)
    (folder_id : Option String) : UploadResult × UState :=
  match upload_file_attempt env s file_path file_stream file_name mime_type folder_id with
  | (.ok (fid, name, link), s1) =>
    (⟨true, some fid, some name, some link, none⟩, s1)
  | (.error e, s1) =>
    (⟨false, none, none, none, some (uploadErrMsg e)⟩, s1)

/-- `get_file_info` (lines 246-265): require a service (raising
"Not authenticated" otherwise) and fetch the metadata of a stored
file; a missing id is a remote HttpError, re-raised. -/
def get_file_info (env : Env) (s : UState) (file_id : String) :
    Except PyErr MockFile × UState :=
  match get_service env s with
  | (.error e, s1) => (.error e, s1)
  | (.ok b, s1) =>
    if !b then (.error (.exc "Not authenticated"), s1)
    else
      match s1.drive.files.find? (fun f => f.id == file_id) with
      | some f => (.ok f, s1)
      | none => (.error (.httpError ("file not found: " ++ file_id)), s1)

/-- Shell-style glob matching on characters, supporting literals and
the * and ? wildcards (character classes are not used by this
repository's callers).  Structural recursion on a fuel argument; each
call shrinks pattern+string by at least one, so the initial fuel of
`globMatch` is never exhausted. -/
def globMatchAux : Nat → List Char → List Char → Bool
  | _, [], [] => true
  | _, [], _ :: _ => false
  | 0, _ :: _, _ => false
  | fuel + 1, p :: ps, [] => if p == '*' then globMatchAux fuel ps [] else false
  | fuel + 1, p :: ps, c :: cs =>
    if p == '*' then globMatchAux fuel ps (c :: cs) || globMatchAux fuel (p :: ps) cs
    else if p == '?' then globMatchAux fuel ps cs
    else p == c && globMatchAux fuel ps cs

/-- Glob matching with enough fuel for the whole pattern and string. -/
def globMatch (p s : List Char) : Bool := globMatchAux (p.length + s.length) p s

/-- Glob matching on strings. -/
def globMatchStr (pat s : String) : Bool := globMatch pat.toList s.toList

/-- `Path(local_dir).glob(pattern)` (shallow): entries of the directory
whose name matches the pattern, in the filesystem's order. -/
def globFiles (fs : LocalFS) (local_dir pattern : String) : List LocalEntry :=
  fs.entries.filter fun e => e.dir == local_dir && globMatchStr pattern e.name

/-- The folders the query of `find_or_create_subfolder`
(upload_to_subfolder.py line 43) matches: exact name, the given parent,
folder mime type, not trashed. -/
def matchingFolders (fs : List DriveFolder) (parent_folder_id folder_name : String) :
    List DriveFolder :=
  fs.filter fun f => f.name == folder_name && f.parent == some parent_folder_id && !f.trashed

/-- `find_or_create_subfolder` (upload_to_subfolder.py lines 28-79):
build the service if absent (an unauthenticated call then dereferences
a None service, which raises and is not caught since only HttpError
is); return the first existing match (pageSize=1) or create a new
folder under the parent and return its fresh id. -/
def find_or_create_subfolder (env : Env) (s : UState)
    (parent_folder_id folder_name : String) : Except PyErr String × UState :=
  match (if s.service then (.ok true, s) else get_service env s :
         Except PyErr Bool × UState) with
  | (.error e, s1) => (.error e, s1)
  | (.ok _, s1) =>
    if !s1.service then
      (.error (.exc "AttributeError: NoneType object has no attribute files"), s1)
    else
      match matchingFolders s1.drive.folders parent_folder_id folder_name with
      | f :: _ => (.ok f.id, s1)
      | [] =>
        (.ok (freshFolderId s1.drive),
         { s1 with drive := driveCreateFolder s1.drive folder_name (some parent_folder_id) })

/-- The result dictionary of `upload_directory_to_subfolder`: the keys
that are present are the `some` fields. -/
structure UDSResult where
  success : Bool
  error : Option String
  uploaded_count : Option Nat
  total_files : Option Nat
  subfolder_id : Option String
  subfolder_name : Option String
  parent_folder_id : Option String
  failed_files : Option (List String)
deriving DecidableEq, Repr

/-- An error result of `upload_directory_to_subfolder`. -/
def udsErr (msg : String) : UDSResult :=
  ⟨false, some msg, none, none, none, none, none, none⟩

/-- The upload loop of `upload_directory_to_subfolder` (lines 121-137):
upload each plain-file entry into the subfolder, counting successes and
collecting the paths of failures; `upload_file` itself never raises, so
the surrounding try/except adds nothing. -/
def uploadLoop (env : Env) (subfolder_id : String) :
    List LocalEntry → UState → Nat → List String → Nat × List String × UState
  | [], s, cnt, failed => (cnt, failed, s)
  | e :: rest, s, cnt, failed =>
    if e.isFile then
      let (r, s1) := upload_file env s (some (fullPath e)) false none
        "application/octet-stream" (some subfolder_id)
      if r.success then uploadLoop env subfolder_id rest s1 (cnt + 1) failed
      else uploadLoop env subfolder_id rest s1 cnt (failed ++ [fullPath e])
    else uploadLoop env subfolder_id rest s cnt failed

/-- `upload_directory_to_subfolder` (upload_to_subfolder.py lines
81-152): check authentication, resolve/create the subfolder (errors
become an error result), check the directory, glob the entries; an
empty match is a zero-upload success carrying only the count and the
subfolder id; otherwise upload each file and report counts, the
subfolder id/name, the parent, and (only when nonempty) the failed
paths. -/
def upload_directory_to_subfolder (env : Env) (s : UState)
    (local_dir parent_folder_id subfolder_name pattern : String) :
    UDSResult × UState :=
  let (auth, s1) := is_authenticated env s
  if !auth then (udsErr "Not authenticated", s1)
  else
    match find_or_create_subfolder env s1 parent_folder_id subfolder_name with
    | (.error e, s2) => (udsErr e.msg, s2)
    | (.ok subId, s2) =>
      if !(env.fs.dirs.contains local_dir) then (udsErr "Directory not found", s2)
      else
        let files := globFiles env.fs local_dir pattern
        if files.isEmpty then
          (⟨true, none, some 0, none, some subId, none, none, none⟩, s2)
        else
          let (cnt, failed, s3) := uploadLoop env subId files s2 0 []
          (⟨true, none, some cnt, some files.length, some subId, some subfolder_name,
            some parent_folder_id,
            if failed.isEmpty then none else some failed⟩, s3)

/-! Helper lemmas about the settings dictionary. -/

theorem lookupKV_setKV_self (kvs : List (String × JVal)) (k : String) (v : JVal) :
    lookupKV (setKV kvs k v) k = some v := by
  induction kvs with
  | nil => simp [setKV, lookupKV]
  | cons p t ih =>
    rcases p with ⟨k1, v1⟩
    by_cases h : k1 = k
    · subst h; simp [setKV, lookupKV]
    · simp [setKV, lookupKV, h, ih]

theorem lookupKV_setKV_other (kvs : List (String × JVal)) (k k1 : String) (v : JVal)
    (h : k1 ≠ k) : lookupKV (setKV kvs k v) k1 = lookupKV kvs k1 := by
  induction kvs with
  | nil => simp [setKV, lookupKV, Ne.symm h]
  | cons p t ih =>
    rcases p with ⟨k2, v2⟩
    by_cases h2 : k2 = k
    · subst h2; simp [setKV, lookupKV, Ne.symm h]
    · simp [setKV, lookupKV, h2, ih]

/-- C4: saving a default folder id and then loading it back returns that
same id, and every other key of the settings file keeps the value it
had before the save (no keys are observable in an absent or unparseable
file, so nothing is lost there either). -/
theorem save_then_load_roundtrip (s : UState) (fid : String) :
    load_default_folder (save_default_folder s fid).settingsFile = some (.str fid)
    ∧ ∀ k, k ≠ "default_folder_id" →
        settingsLookup (save_default_folder s fid).settingsFile k =
          settingsLookup s.settingsFile k := by
  constructor
  · cases hsf : s.settingsFile with
    | absent => simp [save_default_folder, load_default_folder, hsf, setKV, lookupKV]
    | malformed => simp [save_default_folder, load_default_folder, hsf, setKV, lookupKV]
    | obj kvs =>
      simp [save_default_folder, load_default_folder, hsf, lookupKV_setKV_self]
  · intro k hk
    cases hsf : s.settingsFile with
    | absent => simp [save_default_folder, settingsLookup, hsf, setKV, lookupKV, Ne.symm hk]
    | malformed =>
      simp [save_default_folder, settingsLookup, hsf, setKV, lookupKV, Ne.symm hk]
    | obj kvs =>
      simp [save_default_folder, settingsLookup, hsf, lookupKV_setKV_other kvs _ _ _ hk]

/-- C4 witness at a concrete settings file with an extra key. -/
theorem save_then_load_roundtrip_witness :
    load_default_folder
        (save_default_folder
          ⟨none, none, .obj [("color", .str "red"), ("default_folder_id", .str "old")],
           none, false, ⟨[], [], 0, []⟩⟩ "F1").settingsFile = some (.str "F1")
    ∧ settingsLookup
        (save_default_folder
          ⟨none, none, .obj [("color", .str "red"), ("default_folder_id", .str "old")],
           none, false, ⟨[], [], 0, []⟩⟩ "F1").settingsFile "color" =
      settingsLookup
        (SettingsFile.obj [("color", .str "red"), ("default_folder_id", .str "old")])
        "color" :=
  ⟨(save_then_load_roundtrip _ "F1").1,
   (save_then_load_roundtrip
      ⟨none, none, .obj [("color", .str "red"), ("default_folder_id", .str "old")],
       none, false, ⟨[], [], 0, []⟩⟩ "F1").2 "color" (by decide)⟩

/-- C10: when the existing settings file is unreadable or malformed,
`save_default_folder` still succeeds (it is a total function in this
model, as the lone `json.load` is guarded by a bare except), discards
the prior content, writes a settings object holding only the
default_folder_id key, and updates the in-memory default so that the
target resolution of a subsequent upload with no explicit folder picks
the new id. -/
theorem save_default_folder_malformed (s : UState) (fid : String)
    (hsf : s.settingsFile = .malformed) (hfid : fid ≠ "") :
    (save_default_folder s fid).settingsFile = .obj [("default_folder_id", .str fid)]
    ∧ (save_default_folder s fid).default_folder_id = some (.str fid)
    ∧ resolve_target none (save_default_folder s fid).default_folder_id =
        some (.str fid) := by
  refine ⟨by simp [save_default_folder, hsf, setKV], by simp [save_default_folder], ?_⟩
  simp [save_default_folder, resolve_target, strOptTruthy, JVal.truthy, hfid]

/-- C10 witness at a concrete malformed settings file. -/
theorem save_default_folder_malformed_witness :
    (save_default_folder ⟨none, none, .malformed, none, false, ⟨[], [], 0, []⟩⟩
        "F2").settingsFile = .obj [("default_folder_id", .str "F2")]
    ∧ (save_default_folder ⟨none, none, .malformed, none, false, ⟨[], [], 0, []⟩⟩
        "F2").default_folder_id = some (.str "F2")
    ∧ resolve_target none
        (save_default_folder ⟨none, none, .malformed, none, false, ⟨[], [], 0, []⟩⟩
          "F2").default_folder_id = some (.str "F2") :=
  save_default_folder_malformed _ "F2" rfl (by decide)

/-- C5: with expired credentials carrying a refresh token and a fake
refresh endpoint that succeeds, `is_authenticated` answers true and
persists the refreshed credentials to the token file; with expired
credentials carrying no refresh token it answers false and leaves the
whole state — the token file included — unchanged. -/
theorem is_authenticated_refresh_spec (env : Env) (s : UState) (c : Creds)
    (hc : s.creds = some c) (hvalid : c.valid = false) (hexp : c.expired = true) :
    ((c.hasRefresh = true ∧ env.refreshOk = true) →
       is_authenticated env s =
         (true, { s with creds := some (refreshedCreds env c),
                         tokenFile := some (refreshedCreds env c) }))
    ∧ (c.hasRefresh = false → is_authenticated env s = (false, s)) := by
  constructor
  · rintro ⟨hr, hok⟩
    simp [is_authenticated, hc, hvalid, hexp, hr, refresh_credentials, hok,
      save_credentials]
  · intro hr
    simp [is_authenticated, hc, hvalid, hexp, hr]

/-- C5 witness: both halves at concrete credentials. -/
theorem is_authenticated_refresh_spec_witness :
    is_authenticated ⟨⟨[], []⟩, true, "newtok", true⟩
        ⟨some ⟨"old", false, true, some "rt"⟩, some ⟨"old", false, true, some "rt"⟩,
         .absent, none, false, ⟨[], [], 0, []⟩⟩ =
      (true,
       { (⟨some ⟨"old", false, true, some "rt"⟩, some ⟨"old", false, true, some "rt"⟩,
          .absent, none, false, ⟨[], [], 0, []⟩⟩ : UState) with
         creds := some (refreshedCreds ⟨⟨[], []⟩, true, "newtok", true⟩
            ⟨"old", false, true, some "rt"⟩),
         tokenFile := some (refreshedCreds ⟨⟨[], []⟩, true, "newtok", true⟩
            ⟨"old", false, true, some "rt"⟩) })
    ∧ is_authenticated ⟨⟨[], []⟩, true, "newtok", true⟩
        ⟨some ⟨"old", false, true, none⟩, some ⟨"old", false, true, none⟩,
         .absent, none, false, ⟨[], [], 0, []⟩⟩ =
      (false,
       ⟨some ⟨"old", false, true, none⟩, some ⟨"old", false, true, none⟩,
        .absent, none, false, ⟨[], [], 0, []⟩⟩) :=
  ⟨(is_authenticated_refresh_spec _ _ ⟨"old", false, true, some "rt"⟩ rfl rfl rfl).1
      ⟨by decide, rfl⟩,
   (is_authenticated_refresh_spec _ _ ⟨"old", false, true, none⟩ rfl rfl rfl).2
      (by decide)⟩

/-- C9: `upload_file` is total at its interface — every exception of
its body is caught — and the returned dictionary always has a boolean
success key; on success it also carries the file id, name and web view
link, and on failure it carries an error message. -/
theorem upload_file_total_result_shape (env : Env) (s : UState)
    (file_path : Option String) (file_stream : Bool) (file_name : Option String)
    (mime_type : String) (folder_id : Option String) :
    (((upload_file env s file_path file_stream file_name mime_type folder_id).1.success
          = true
        ∧ (upload_file env s file_path file_stream file_name mime_type
            folder_id).1.file_id.isSome = true
        ∧ (upload_file env s file_path file_stream file_name mime_type
            folder_id).1.file_name.isSome = true
        ∧ (upload_file env s file_path file_stream file_name mime_type
            folder_id).1.web_view_link.isSome = true
        ∧ (upload_file env s file_path file_stream file_name mime_type
            folder_id).1.error = none)
      ∨ ((upload_file env s file_path file_stream file_name mime_type
            folder_id).1.success = false
        ∧ (upload_file env s file_path file_stream file_name mime_type
            folder_id).1.error.isSome = true)) := by
  rcases h : upload_file_attempt env s file_path file_stream file_name mime_type
      folder_id with ⟨r, s1⟩
  cases r with
  | ok v =>
    rcases v with ⟨fid, name, link⟩
    left
    simp [upload_file, h]
  | error e =>
    right
    simp [upload_file, h]

/-! Helper lemmas about the fake folder store and local files. -/

theorem matchingFolders_append (l1 l2 : List DriveFolder) (p n : String) :
    matchingFolders (l1 ++ l2) p n = matchingFolders l1 p n ++ matchingFolders l2 p n := by
  simp [matchingFolders, List.filter_append]

theorem find_or_create_service_total (env : Env) (s : UState) (p n : String)
    (hs : s.service = true) :
    ∃ fid s2, find_or_create_subfolder env s p n = (.ok fid, s2)
      ∧ s2.service = true ∧ s2.drive.uploadFail = s.drive.uploadFail
      ∧ s2.creds = s.creds ∧ s2.default_folder_id = s.default_folder_id := by
  cases hm : matchingFolders s.drive.folders p n with
  | nil =>
    exact ⟨freshFolderId s.drive,
      { s with drive := driveCreateFolder s.drive n (some p) },
      by simp [find_or_create_subfolder, hs, hm], by simp [hs],
      by simp [driveCreateFolder], rfl, rfl⟩
  | cons f t =>
    exact ⟨f.id, s, by simp [find_or_create_subfolder, hs, hm], hs, rfl, rfl, rfl⟩

/-- C3: when no non-trashed folder with the requested name exists under
the parent, `find_or_create_subfolder` creates one and returns its id,
and a second call with the same parent and name finds that folder (the
first and only match) and returns the very same id, leaving the store
unchanged. -/
theorem find_or_create_twice_same_id (env : Env) (s : UState)
    (parentId name : String) (hs : s.service = true)
    (hnone : matchingFolders s.drive.folders parentId name = []) :
    ∃ fid s1, find_or_create_subfolder env s parentId name = (.ok fid, s1)
      ∧ matchingFolders s1.drive.folders parentId name =
          [⟨fid, name, some parentId, false⟩]
      ∧ find_or_create_subfolder env s1 parentId name = (.ok fid, s1) := by
  refine ⟨freshFolderId s.drive,
    { s with drive := driveCreateFolder s.drive name (some parentId) }, ?_, ?_, ?_⟩
  · simp [find_or_create_subfolder, hs, hnone]
  · simp only [driveCreateFolder, matchingFolders_append, hnone]
    simp [matchingFolders]
  · have h1 : matchingFolders
        ({ s with drive := driveCreateFolder s.drive name (some parentId)
         } : UState).drive.folders parentId name =
        [⟨freshFolderId s.drive, name, some parentId, false⟩] := by
      simp only [driveCreateFolder, matchingFolders_append, hnone]
      simp [matchingFolders]
    simp [find_or_create_subfolder, hs, h1]

/-- C3 witness on an initially empty fake store. -/
theorem find_or_create_twice_same_id_witness :
    ∃ fid s1,
      find_or_create_subfolder ⟨⟨[], []⟩, true, "t", true⟩
          ⟨none, none, .absent, none, true, ⟨[], [], 0, []⟩⟩ "P" "reports" =
        (.ok fid, s1)
      ∧ matchingFolders s1.drive.folders "P" "reports" =
          [⟨fid, "reports", some "P", false⟩]
      ∧ find_or_create_subfolder ⟨⟨[], []⟩, true, "t", true⟩ s1 "P" "reports" =
          (.ok fid, s1) :=
  find_or_create_twice_same_id _ _ "P" "reports" rfl (by decide)

/-- C8: with prior authentication and a live service, an existing
directory whose glob pattern matches nothing yields the zero-upload
success result: success=True, uploaded_count=0, and the resolved
subfolder id (and no error). -/
theorem upload_directory_empty_success (env : Env) (s : UState) (c : Creds)
    (local_dir parentId subName pattern : String)
    (hc : s.creds = some c) (hvalid : c.valid = true) (hs : s.service = true)
    (hdir : env.fs.dirs.contains local_dir = true)
    (hglob : globFiles env.fs local_dir pattern = []) :
    ∃ subId s2,
      upload_directory_to_subfolder env s local_dir parentId subName pattern =
        (⟨true, none, some 0, none, some subId, none, none, none⟩, s2) := by
  obtain ⟨fid, s2, hfc, _⟩ := find_or_create_service_total env s parentId subName hs
  have hauth : is_authenticated env s = (true, s) := by
    simp [is_authenticated, hc, hvalid]
  have hmem : local_dir ∈ env.fs.dirs := by simpa using hdir
  exact ⟨fid, s2, by simp [upload_directory_to_subfolder, hauth, hfc, hmem, hglob]⟩

/-- C8 witness: an empty directory under an authenticated client. -/
theorem upload_directory_empty_success_witness :
    ∃ subId s2,
      upload_directory_to_subfolder ⟨⟨["empty"], []⟩, true, "t", true⟩
          ⟨some ⟨"tok", true, false, none⟩, none, .absent, none, true, ⟨[], [], 0, []⟩⟩
          "empty" "P" "sub" "*" =
        (⟨true, none, some 0, none, some subId, none, none, none⟩, s2) :=
  upload_directory_empty_success _ _ ⟨"tok", true, false, none⟩ "empty" "P" "sub" "*"
    rfl rfl rfl (by decide) (by decide)

/-! Helper lemmas about local paths and the upload path of the code. -/

theorem fullPath_ne_empty (e : LocalEntry) : fullPath e ≠ "" := by
  intro h
  have h1 := congrArg String.length h
  simp [fullPath, String.length_append] at h1
  exact absurd h1.1.2 (by decide)

theorem strOptTruthy_some_of_ne (x : String) (h : x ≠ "") :
    strOptTruthy (some x) = true := by
  simp [strOptTruthy, h]

theorem fsExists_of_mem (fs : LocalFS) (e : LocalEntry) (he : e ∈ fs.entries) :
    fsExists fs (fullPath e) = true := by
  simp only [fsExists, Bool.or_eq_true, List.any_eq_true]
  exact Or.inl ⟨e, he, by simp⟩

theorem fsIsFile_of_mem (fs : LocalFS) (e : LocalEntry) (he : e ∈ fs.entries)
    (hf : e.isFile = true) : fsIsFile fs (fullPath e) = true := by
  simp only [fsIsFile, List.any_eq_true]
  exact ⟨e, he, by simp [hf]⟩

/-- Behaviour of `upload_file` on an existing plain file when the
service handle is live: the fake either refuses the file's name (an
HttpError captured into a success=False result, state untouched) or
records the file under the resolved target folder and reports its
fresh id, name and view link. -/
theorem upload_file_spec_file (env : Env) (s : UState) (e : LocalEntry)
    (mime : String) (folder_id : Option String)
    (hs : s.service = true) (he : e ∈ env.fs.entries) (hf : e.isFile = true) :
    upload_file env s (some (fullPath e)) false none mime folder_id =
      if s.drive.uploadFail.contains (basename (fullPath e)) then
        (⟨false, none, none, none,
          some ("HTTP error uploading file: "
            ++ ("upload failed for " ++ basename (fullPath e)))⟩, s)
      else
        (⟨true, some ("file_" ++ toString s.drive.nextId), some (basename (fullPath e)),
          some (mockLink ("file_" ++ toString s.drive.nextId)), none⟩,
         { s with drive := { s.drive with
             files := s.drive.files ++ [⟨"file_" ++ toString s.drive.nextId,
               basename (fullPath e),
               resolve_target folder_id s.default_folder_id, mime⟩],
             nextId := s.drive.nextId + 1 } }) := by
  have hex := fsExists_of_mem env.fs e he
  have hisf := fsIsFile_of_mem env.fs e he hf
  obtain ⟨cr, tf, sf, df, sv, dr⟩ := s
  have hs2 : sv = true := hs
  subst hs2
  by_cases hfail : dr.uploadFail.contains (basename (fullPath e))
  · have hmem : basename (fullPath e) ∈ dr.uploadFail := by simpa using hfail
    simp [upload_file, upload_file_attempt, get_service, fullPath_ne_empty e,
      hex, hisf, driveUpload, hmem, hfail, strOptTruthy, uploadErrMsg, PyErr.msg]
  · have hmem : basename (fullPath e) ∉ dr.uploadFail := by simpa using hfail
    simp [upload_file, upload_file_attempt, get_service, fullPath_ne_empty e,
      hex, hisf, driveUpload, hmem, hfail, strOptTruthy]

/-- C6 counterexample input: a live, authenticated client given no file
path, no stream, but an explicit file name.  The claim calls every
no-path-no-named-stream input a usage error; here the usage check is
passed (a name is present), the upload then fails inside the media
wrapper seeking on the absent stream, and the captured message is not
the usage-error message. -/
theorem upload_file_stream_none_not_usage_error :
    (upload_file ⟨⟨[], []⟩, true, "t", true⟩
        ⟨some ⟨"tok", true, false, none⟩, none, .absent, none, true, ⟨[], [], 0, []⟩⟩
        none false (some "x.txt") "application/octet-stream" none).1 =
      ⟨false, none, none, none,
        some "Error uploading file: AttributeError: NoneType object has no attribute seek"⟩
    ∧ "Error uploading file: AttributeError: NoneType object has no attribute seek" ≠
        "Error uploading file: file_name is required when using file_stream" := by
  constructor
  · rfl
  · decide

/-- C6 (amended): with a live service, `upload_file` given no (truthy)
file path and no (truthy) file name fails with the usage-error message,
whether or not a stream was supplied; given a path to a nonexistent
file it fails with the not-found message; and given an existing plain
file whose name the fake accepts it returns success=True carrying the
fake's assigned file id, file name and web view link. -/
theorem upload_file_error_cases (env : Env) (s : UState) (hs : s.service = true) :
    (∀ file_stream mime folder_id,
        upload_file env s none file_stream none mime folder_id =
          (⟨false, none, none, none,
            some "Error uploading file: file_name is required when using file_stream"⟩, s))
    ∧ (∀ p mime folder_id, p ≠ "" → fsExists env.fs p = false →
        upload_file env s (some p) false none mime folder_id =
          (⟨false, none, none, none,
            some ("Error uploading file: " ++ ("File not found: " ++ p))⟩, s))
    ∧ (∀ e mime folder_id, e ∈ env.fs.entries → e.isFile = true →
        s.drive.uploadFail.contains (basename (fullPath e)) = false →
        (upload_file env s (some (fullPath e)) false none mime folder_id).1 =
          ⟨true, some ("file_" ++ toString s.drive.nextId),
           some (basename (fullPath e)),
           some (mockLink ("file_" ++ toString s.drive.nextId)), none⟩) := by
  refine ⟨?_, ?_, ?_⟩
  · intro file_stream mime folder_id
    simp [upload_file, upload_file_attempt, get_service, hs, strOptTruthy,
      uploadErrMsg, PyErr.msg]
  · intro p mime folder_id hp hex
    simp [upload_file, upload_file_attempt, get_service, hs,
      strOptTruthy_some_of_ne p hp, hex, uploadErrMsg, PyErr.msg]
  · intro e mime folder_id he hf hok
    rw [upload_file_spec_file env s e mime folder_id hs he hf,
      if_neg (by simpa using hok)]

/-- C6 witness: all three amended cases at concrete inputs. -/
theorem upload_file_error_cases_witness :
    upload_file ⟨⟨["d"], [⟨"d", "a.txt", true⟩]⟩, true, "t", true⟩
        ⟨some ⟨"tok", true, false, none⟩, none, .absent, none, true, ⟨[], [], 0, []⟩⟩
        none true none "m" none =
      (⟨false, none, none, none,
        some "Error uploading file: file_name is required when using file_stream"⟩,
       ⟨some ⟨"tok", true, false, none⟩, none, .absent, none, true, ⟨[], [], 0, []⟩⟩)
    ∧ upload_file ⟨⟨["d"], [⟨"d", "a.txt", true⟩]⟩, true, "t", true⟩
        ⟨some ⟨"tok", true, false, none⟩, none, .absent, none, true, ⟨[], [], 0, []⟩⟩
        (some "d/missing.txt") false none "m" none =
      (⟨false, none, none, none,
        some ("Error uploading file: " ++ ("File not found: " ++ "d/missing.txt"))⟩,
       ⟨some ⟨"tok", true, false, none⟩, none, .absent, none, true, ⟨[], [], 0, []⟩⟩)
    ∧ (upload_file ⟨⟨["d"], [⟨"d", "a.txt", true⟩]⟩, true, "t", true⟩
        ⟨some ⟨"tok", true, false, none⟩, none, .absent, none, true, ⟨[], [], 0, []⟩⟩
        (some (fullPath ⟨"d", "a.txt", true⟩)) false none "m" none).1 =
      ⟨true, some ("file_" ++ toString (0 : Nat)), some (basename (fullPath ⟨"d", "a.txt", true⟩)),
       some (mockLink ("file_" ++ toString (0 : Nat))), none⟩ :=
  ⟨(upload_file_error_cases _ _ rfl).1 true "m" none,
   (upload_file_error_cases _ _ rfl).2.1 "d/missing.txt" "m" none (by decide) (by decide),
   (upload_file_error_cases _ _ rfl).2.2 ⟨"d", "a.txt", true⟩ "m" none (by decide) rfl
     (by decide)⟩

/-- Target resolution, spelled out: a truthy explicit folder id wins;
otherwise a truthy stored default is used; otherwise no parent. -/
theorem resolve_target_eq (folder_id : Option String) (default : Option JVal)
    (hfid : ∀ x, folder_id = some x → x ≠ "")
    (hdef : ∀ v, default = some v → v.truthy = true) :
    resolve_target folder_id default =
      (match folder_id with
       | some f => some (JVal.str f)
       | none => default) := by
  cases folder_id with
  | some f =>
    have hf := hfid f rfl
    simp [resolve_target, strOptTruthy, hf, JVal.truthy]
  | none =>
    cases default with
    | none => simp [resolve_target, strOptTruthy]
    | some v => simp [resolve_target, strOptTruthy, hdef v rfl]

/-- C7: the upload request's parent is the explicitly passed folder id
when one is given, otherwise the stored default folder id, and when
neither exists the recorded file carries no parent (the provider's
root).  Stated on the file the fake store records for a successful
upload of an existing local file. -/
theorem upload_target_resolution (env : Env) (s : UState) (e : LocalEntry)
    (mime : String) (folder_id : Option String)
    (hs : s.service = true) (he : e ∈ env.fs.entries) (hf : e.isFile = true)
    (hok : s.drive.uploadFail.contains (basename (fullPath e)) = false)
    (hfid : ∀ x, folder_id = some x → x ≠ "")
    (hdef : ∀ v, s.default_folder_id = some v → v.truthy = true) :
    ((upload_file env s (some (fullPath e)) false none mime folder_id).2).drive.files =
      s.drive.files ++ [⟨"file_" ++ toString s.drive.nextId, basename (fullPath e),
        (match folder_id with
         | some f => some (JVal.str f)
         | none => s.default_folder_id), mime⟩] := by
  rw [upload_file_spec_file env s e mime folder_id hs he hf,
    if_neg (by simpa using hok)]
  simp [resolve_target_eq folder_id s.default_folder_id hfid hdef]

/-- C7 witness: an explicit folder id, a stored default alone, and
neither, each at a concrete input. -/
theorem upload_target_resolution_witness :
    ((upload_file ⟨⟨["d"], [⟨"d", "a.txt", true⟩]⟩, true, "t", true⟩
        ⟨some ⟨"tok", true, false, none⟩, none, .absent, some (.str "DEF"), true,
         ⟨[], [], 0, []⟩⟩
        (some (fullPath ⟨"d", "a.txt", true⟩)) false none "m" (some "EXP")).2).drive.files =
      [] ++ [⟨"file_" ++ toString (0 : Nat), basename (fullPath ⟨"d", "a.txt", true⟩),
        some (JVal.str "EXP"), "m"⟩]
    ∧ ((upload_file ⟨⟨["d"], [⟨"d", "a.txt", true⟩]⟩, true, "t", true⟩
        ⟨some ⟨"tok", true, false, none⟩, none, .absent, some (.str "DEF"), true,
         ⟨[], [], 0, []⟩⟩
        (some (fullPath ⟨"d", "a.txt", true⟩)) false none "m" none).2).drive.files =
      [] ++ [⟨"file_" ++ toString (0 : Nat), basename (fullPath ⟨"d", "a.txt", true⟩),
        some (JVal.str "DEF"), "m"⟩]
    ∧ ((upload_file ⟨⟨["d"], [⟨"d", "a.txt", true⟩]⟩, true, "t", true⟩
        ⟨some ⟨"tok", true, false, none⟩, none, .absent, none, true,
         ⟨[], [], 0, []⟩⟩
        (some (fullPath ⟨"d", "a.txt", true⟩)) false none "m" none).2).drive.files =
      [] ++ [⟨"file_" ++ toString (0 : Nat), basename (fullPath ⟨"d", "a.txt", true⟩),
        none, "m"⟩] :=
  ⟨upload_target_resolution _ _ ⟨"d", "a.txt", true⟩ "m" (some "EXP") rfl (by decide)
      rfl (by decide) (by intro x h; cases h; decide) (by intro v h; cases h; decide),
   upload_target_resolution _ _ ⟨"d", "a.txt", true⟩ "m" none rfl (by decide)
      rfl (by decide) (by intro x h; cases h) (by intro v h; cases h; decide),
   upload_target_resolution _ _ ⟨"d", "a.txt", true⟩ "m" none rfl (by decide)
      rfl (by decide) (by intro x h; cases h) (by intro v h; cases h)⟩

/-- C1 counterexample: on an unauthenticated client (no credentials in
memory, no token file, no service handle) `upload_file` does not raise:
its own catch-all converts the internal "Not authenticated" exception
into a returned success=False result, the same channel that carries
transport errors — contradicting the claim that uploadFile raises on
authentication absence. -/
theorem upload_file_unauth_captures :
    upload_file ⟨⟨["d"], [⟨"d", "a.txt", true⟩]⟩, true, "t", true⟩
        ⟨none, none, .absent, none, false, ⟨[], [], 0, []⟩⟩
        (some "d/a.txt") false none "application/octet-stream" none =
      (⟨false, none, none, none, some "Error uploading file: Not authenticated"⟩,
       ⟨none, none, .absent, none, false, ⟨[], [], 0, []⟩⟩) := rfl

/-- C1 (amended): on an unauthenticated client, `list_folders`,
`create_folder` and `get_file_info` raise the "Not authenticated"
exception, while `upload_file` captures the same condition into its
returned result with success=False — the channel transport errors also
use — instead of raising. -/
theorem auth_absence_raise_except_upload (env : Env) (s : UState)
    (hserv : s.service = false) (hcreds : s.creds = none)
    (htok : s.tokenFile = none) :
    (∀ pid, list_folders env s pid = (.error (.exc "Not authenticated"), s))
    ∧ (∀ name pid, create_folder env s name pid =
        (.error (.exc "Not authenticated"), s))
    ∧ (∀ fid, get_file_info env s fid = (.error (.exc "Not authenticated"), s))
    ∧ (∀ fp fstream fname mime fid, upload_file env s fp fstream fname mime fid =
        (⟨false, none, none, none,
          some "Error uploading file: Not authenticated"⟩, s)) := by
  have hget : get_service env s = (.ok false, s) := by
    simp [get_service, hserv, is_authenticated, hcreds, load_credentials, htok]
  refine ⟨?_, ?_, ?_, ?_⟩
  · intro pid; simp [list_folders, hget]
  · intro name pid; simp [create_folder, hget]
  · intro fid; simp [get_file_info, hget]
  · intro fp fstream fname mime fid
    simp [upload_file, upload_file_attempt, hget, uploadErrMsg, PyErr.msg]

/-- C1 amended witness at a concrete unauthenticated state. -/
theorem auth_absence_raise_except_upload_witness :
    list_folders ⟨⟨[], []⟩, true, "t", true⟩
        ⟨none, none, .absent, none, false, ⟨[], [], 0, []⟩⟩ none =
      (.error (.exc "Not authenticated"),
       ⟨none, none, .absent, none, false, ⟨[], [], 0, []⟩⟩)
    ∧ create_folder ⟨⟨[], []⟩, true, "t", true⟩
        ⟨none, none, .absent, none, false, ⟨[], [], 0, []⟩⟩ "n" none =
      (.error (.exc "Not authenticated"),
       ⟨none, none, .absent, none, false, ⟨[], [], 0, []⟩⟩)
    ∧ get_file_info ⟨⟨[], []⟩, true, "t", true⟩
        ⟨none, none, .absent, none, false, ⟨[], [], 0, []⟩⟩ "f1" =
      (.error (.exc "Not authenticated"),
       ⟨none, none, .absent, none, false, ⟨[], [], 0, []⟩⟩)
    ∧ upload_file ⟨⟨[], []⟩, true, "t", true⟩
        ⟨none, none, .absent, none, false, ⟨[], [], 0, []⟩⟩
        (some "x") false none "m" none =
      (⟨false, none, none, none,
        some "Error uploading file: Not authenticated"⟩,
       ⟨none, none, .absent, none, false, ⟨[], [], 0, []⟩⟩) :=
  ⟨(auth_absence_raise_except_upload _ _ rfl rfl rfl).1 none,
   (auth_absence_raise_except_upload _ _ rfl rfl rfl).2.1 "n" none,
   (auth_absence_raise_except_upload _ _ rfl rfl rfl).2.2.1 "f1",
   (auth_absence_raise_except_upload _ _ rfl rfl rfl).2.2.2 (some "x") false none "m"
     none⟩

theorem length_filter_complement {α : Type} (p : α → Bool) (l : List α) :
    (l.filter fun a => !p a).length + (l.filter p).length = l.length := by
  induction l with
  | nil => simp
  | cons a t ih => by_cases h : p a <;> simp [List.filter_cons, h] <;> omega

/-- The upload loop of `upload_directory_to_subfolder`, characterised:
with a live service, and every listed entry an existing plain file, it
never aborts, counts exactly the entries whose (base)name the fake
accepts, collects exactly the paths of the entries whose name the fake
refuses, in order, and preserves the service handle and the fake's
failure list. -/
theorem uploadLoop_spec (env : Env) (subId : String) (F : List String)
    (l : List LocalEntry) (hl : ∀ e ∈ l, e ∈ env.fs.entries ∧ e.isFile = true) :
    ∀ (s : UState) (cnt : Nat) (acc : List String),
      s.service = true → s.drive.uploadFail = F →
      (uploadLoop env subId l s cnt acc).1 =
          cnt + (l.filter fun e => !F.contains (basename (fullPath e))).length
      ∧ (uploadLoop env subId l s cnt acc).2.1 =
          acc ++ (l.filter fun e => F.contains (basename (fullPath e))).map fullPath
      ∧ (uploadLoop env subId l s cnt acc).2.2.service = true
      ∧ (uploadLoop env subId l s cnt acc).2.2.drive.uploadFail = F := by
  induction l with
  | nil => intro s cnt acc hs hF; simp [uploadLoop, hs, hF]
  | cons e rest ih =>
    intro s cnt acc hs hF
    obtain ⟨he, hf⟩ := hl e (by simp)
    have hrest : ∀ x ∈ rest, x ∈ env.fs.entries ∧ x.isFile = true :=
      fun x hx => hl x (List.mem_cons_of_mem _ hx)
    have hspec := upload_file_spec_file env s e "application/octet-stream" (some subId)
      hs he hf
    rw [hF] at hspec
    by_cases hfail : F.contains (basename (fullPath e))
    · have hmem : basename (fullPath e) ∈ F := by simpa using hfail
      have hup : upload_file env s (some (fullPath e)) false none
          "application/octet-stream" (some subId) =
          (⟨false, none, none, none, some ("HTTP error uploading file: "
            ++ ("upload failed for " ++ basename (fullPath e)))⟩, s) := by
        rw [hspec, if_pos hfail]
      obtain ⟨ih1, ih2, ih3, ih4⟩ := ih hrest s cnt (acc ++ [fullPath e]) hs hF
      refine ⟨?_, ?_, ?_, ?_⟩
      · simp [uploadLoop, hf, hup, ih1, List.filter_cons, hmem]
      · simp [uploadLoop, hf, hup, ih2, List.filter_cons, hmem, List.append_assoc]
      · simp [uploadLoop, hf, hup, ih3]
      · simp [uploadLoop, hf, hup, ih4]
    · have hmem : basename (fullPath e) ∉ F := by simpa using hfail
      have hup : upload_file env s (some (fullPath e)) false none
          "application/octet-stream" (some subId) =
          (⟨true, some ("file_" ++ toString s.drive.nextId),
            some (basename (fullPath e)),
            some (mockLink ("file_" ++ toString s.drive.nextId)), none⟩,
           { s with drive := { s.drive with
               files := s.drive.files ++ [⟨"file_" ++ toString s.drive.nextId,
                 basename (fullPath e),
                 resolve_target (some subId) s.default_folder_id,
                 "application/octet-stream"⟩],
               nextId := s.drive.nextId + 1 } }) := by
        rw [hspec, if_neg hfail]
      obtain ⟨ih1, ih2, ih3, ih4⟩ := ih hrest
        { s with drive := { s.drive with
            files := s.drive.files ++ [⟨"file_" ++ toString s.drive.nextId,
              basename (fullPath e),
              resolve_target (some subId) s.default_folder_id,
              "application/octet-stream"⟩],
            nextId := s.drive.nextId + 1 } }
        (cnt + 1) acc hs hF
      refine ⟨?_, ?_, ?_, ?_⟩
      · simp [uploadLoop, hf, hup, ih1, List.filter_cons, hmem]
        omega
      · simp [uploadLoop, hf, hup, ih2, List.filter_cons, hmem]
      · simp [uploadLoop, hf, hup, ih3]
      · simp [uploadLoop, hf, hup, ih4]

/-- C2 counterexample: an authenticated client, a live service and an
existing directory whose glob pattern matches zero files (N = 0,
M = 0).  The claim promises a result reporting the total N and the
subfolder's name; the code's zero-match early return carries neither
key (while it does report success and zero uploads). -/
theorem batch_zero_files_counterexample :
    (upload_directory_to_subfolder ⟨⟨["empty"], []⟩, true, "t", true⟩
        ⟨some ⟨"tok", true, false, none⟩, none, .absent, none, true, ⟨[], [], 0, []⟩⟩
        "empty" "P" "sub" "*").1.success = true
    ∧ (upload_directory_to_subfolder ⟨⟨["empty"], []⟩, true, "t", true⟩
        ⟨some ⟨"tok", true, false, none⟩, none, .absent, none, true, ⟨[], [], 0, []⟩⟩
        "empty" "P" "sub" "*").1.uploaded_count = some 0
    ∧ globFiles (⟨["empty"], []⟩ : LocalFS) "empty" "*" = []
    ∧ (upload_directory_to_subfolder ⟨⟨["empty"], []⟩, true, "t", true⟩
        ⟨some ⟨"tok", true, false, none⟩, none, .absent, none, true, ⟨[], [], 0, []⟩⟩
        "empty" "P" "sub" "*").1.total_files = none
    ∧ (upload_directory_to_subfolder ⟨⟨["empty"], []⟩, true, "t", true⟩
        ⟨some ⟨"tok", true, false, none⟩, none, .absent, none, true, ⟨[], [], 0, []⟩⟩
        "empty" "P" "sub" "*").1.subfolder_name = none := by
  refine ⟨rfl, rfl, rfl, rfl, rfl⟩

/-- C2 (amended, N at least 1): with prior authentication and a live
service, for a directory whose glob pattern matches at least one entry,
all of them plain files, `upload_directory_to_subfolder` uploads each
in turn without aborting, and returns success=True with
uploaded_count = N - M, total_files = N, the resolved subfolder's id
and name, the parent id, and the list of exactly the M failing paths
(the key being absent when M = 0), where the M failures are the files
whose names the fake client refuses. -/
theorem upload_directory_batch_counts (env : Env) (s : UState) (c : Creds)
    (local_dir parentId subName pattern : String)
    (hc : s.creds = some c) (hvalid : c.valid = true) (hs : s.service = true)
    (hdir : env.fs.dirs.contains local_dir = true)
    (hfiles : ∀ e ∈ globFiles env.fs local_dir pattern, e.isFile = true)
    (hne : globFiles env.fs local_dir pattern ≠ []) :
    ∃ subId s2,
      find_or_create_subfolder env s parentId subName = (.ok subId, s2)
      ∧ (upload_directory_to_subfolder env s local_dir parentId subName
          pattern).1.success = true
      ∧ (upload_directory_to_subfolder env s local_dir parentId subName
          pattern).1.uploaded_count =
          some ((globFiles env.fs local_dir pattern).length -
            ((globFiles env.fs local_dir pattern).filter fun e =>
              s.drive.uploadFail.contains (basename (fullPath e))).length)
      ∧ (upload_directory_to_subfolder env s local_dir parentId subName
          pattern).1.total_files = some (globFiles env.fs local_dir pattern).length
      ∧ (upload_directory_to_subfolder env s local_dir parentId subName
          pattern).1.subfolder_id = some subId
      ∧ (upload_directory_to_subfolder env s local_dir parentId subName
          pattern).1.subfolder_name = some subName
      ∧ (upload_directory_to_subfolder env s local_dir parentId subName
          pattern).1.parent_folder_id = some parentId
      ∧ (upload_directory_to_subfolder env s local_dir parentId subName
          pattern).1.failed_files =
          (if ((globFiles env.fs local_dir pattern).filter fun e =>
                s.drive.uploadFail.contains (basename (fullPath e))).isEmpty then none
           else some (((globFiles env.fs local_dir pattern).filter fun e =>
                s.drive.uploadFail.contains (basename (fullPath e))).map fullPath)) := by
  obtain ⟨subId, s2, hfc, hserv2, hfail2, _, _⟩ :=
    find_or_create_service_total env s parentId subName hs
  have hauth : is_authenticated env s = (true, s) := by
    simp [is_authenticated, hc, hvalid]
  have hmem : local_dir ∈ env.fs.dirs := by simpa using hdir
  have hlmem : ∀ e ∈ globFiles env.fs local_dir pattern,
      e ∈ env.fs.entries ∧ e.isFile = true := by
    intro e heg
    refine ⟨?_, hfiles e heg⟩
    have : e ∈ env.fs.entries.filter fun x =>
        x.dir == local_dir && globMatchStr pattern x.name := heg
    exact List.mem_of_mem_filter this
  obtain ⟨hL1, hL2, hL3, hL4⟩ := uploadLoop_spec env subId s.drive.uploadFail
    (globFiles env.fs local_dir pattern) hlmem s2 0 [] hserv2 hfail2
  have hne2 : (globFiles env.fs local_dir pattern).isEmpty = false := by
    rcases hgf : globFiles env.fs local_dir pattern with _ | ⟨a, t⟩
    · exact absurd hgf hne
    · rfl
  have hcomp := length_filter_complement
    (fun e => s.drive.uploadFail.contains (basename (fullPath e)))
    (globFiles env.fs local_dir pattern)
  rcases hU : uploadLoop env subId (globFiles env.fs local_dir pattern) s2 0 []
    with ⟨cnt, failed, s3⟩
  rw [hU] at hL1 hL2
  simp only [] at hL1 hL2
  have hres : upload_directory_to_subfolder env s local_dir parentId subName pattern =
      (⟨true, none, some cnt, some (globFiles env.fs local_dir pattern).length,
        some subId, some subName, some parentId,
        if failed.isEmpty then none else some failed⟩, s3) := by
    simp only [upload_directory_to_subfolder, hauth, Bool.not_true, Bool.false_eq_true,
      if_false, hfc]
    rw [if_neg (by simpa using hmem)]
    simp only [hne2, Bool.false_eq_true, if_false, hU]
  refine ⟨subId, s2, hfc, ?_, ?_, ?_, ?_, ?_, ?_, ?_⟩ <;> rw [hres]
  · simp only [hL1]
    congr 1
    omega
  · simp only [hL2, List.nil_append]
    rcases hflt : (globFiles env.fs local_dir pattern).filter
        (fun e => s.drive.uploadFail.contains (basename (fullPath e))) with _ | ⟨a, t⟩
    · rfl
    · rfl

/-- C2 witness: two matching files of which the fake refuses one. -/
theorem upload_directory_batch_counts_witness :
    ∃ subId s2,
      find_or_create_subfolder ⟨⟨["d"], [⟨"d", "a.txt", true⟩, ⟨"d", "bad.txt", true⟩]⟩,
          true, "t", true⟩
        ⟨some ⟨"tok", true, false, none⟩, none, .absent, none, true,
         ⟨[], [], 0, ["bad.txt"]⟩⟩ "P" "sub" = (.ok subId, s2)
      ∧ (upload_directory_to_subfolder
          ⟨⟨["d"], [⟨"d", "a.txt", true⟩, ⟨"d", "bad.txt", true⟩]⟩, true, "t", true⟩
          ⟨some ⟨"tok", true, false, none⟩, none, .absent, none, true,
           ⟨[], [], 0, ["bad.txt"]⟩⟩ "d" "P" "sub" "*").1.success = true
      ∧ (upload_directory_to_subfolder
          ⟨⟨["d"], [⟨"d", "a.txt", true⟩, ⟨"d", "bad.txt", true⟩]⟩, true, "t", true⟩
          ⟨some ⟨"tok", true, false, none⟩, none, .absent, none, true,
           ⟨[], [], 0, ["bad.txt"]⟩⟩ "d" "P" "sub" "*").1.uploaded_count =
          some ((globFiles ⟨["d"], [⟨"d", "a.txt", true⟩, ⟨"d", "bad.txt", true⟩]⟩
              "d" "*").length -
            ((globFiles ⟨["d"], [⟨"d", "a.txt", true⟩, ⟨"d", "bad.txt", true⟩]⟩
              "d" "*").filter fun e =>
              (⟨[], [], 0, ["bad.txt"]⟩ : DriveState).uploadFail.contains
                (basename (fullPath e))).length)
      ∧ (upload_directory_to_subfolder
          ⟨⟨["d"], [⟨"d", "a.txt", true⟩, ⟨"d", "bad.txt", true⟩]⟩, true, "t", true⟩
          ⟨some ⟨"tok", true, false, none⟩, none, .absent, none, true,
           ⟨[], [], 0, ["bad.txt"]⟩⟩ "d" "P" "sub" "*").1.total_files =
          some (globFiles ⟨["d"], [⟨"d", "a.txt", true⟩, ⟨"d", "bad.txt", true⟩]⟩
            "d" "*").length
      ∧ (upload_directory_to_subfolder
          ⟨⟨["d"], [⟨"d", "a.txt", true⟩, ⟨"d", "bad.txt", true⟩]⟩, true, "t", true⟩
          ⟨some ⟨"tok", true, false, none⟩, none, .absent, none, true,
           ⟨[], [], 0, ["bad.txt"]⟩⟩ "d" "P" "sub" "*").1.subfolder_id = some subId
      ∧ (upload_directory_to_subfolder
          ⟨⟨["d"], [⟨"d", "a.txt", true⟩, ⟨"d", "bad.txt", true⟩]⟩, true, "t", true⟩
          ⟨some ⟨"tok", true, false, none⟩, none, .absent, none, true,
           ⟨[], [], 0, ["bad.txt"]⟩⟩ "d" "P" "sub" "*").1.subfolder_name = some "sub"
      ∧ (upload_directory_to_subfolder
          ⟨⟨["d"], [⟨"d", "a.txt", true⟩, ⟨"d", "bad.txt", true⟩]⟩, true, "t", true⟩
          ⟨some ⟨"tok", true, false, none⟩, none, .absent, none, true,
           ⟨[], [], 0, ["bad.txt"]⟩⟩ "d" "P" "sub" "*").1.parent_folder_id = some "P"
      ∧ (upload_directory_to_subfolder
          ⟨⟨["d"], [⟨"d", "a.txt", true⟩, ⟨"d", "bad.txt", true⟩]⟩, true, "t", true⟩
          ⟨some ⟨"tok", true, false, none⟩, none, .absent, none, true,
           ⟨[], [], 0, ["bad.txt"]⟩⟩ "d" "P" "sub" "*").1.failed_files =
          (if ((globFiles ⟨["d"], [⟨"d", "a.txt", true⟩, ⟨"d", "bad.txt", true⟩]⟩
                "d" "*").filter fun e =>
                (⟨[], [], 0, ["bad.txt"]⟩ : DriveState).uploadFail.contains
                  (basename (fullPath e))).isEmpty then none
           else some (((globFiles ⟨["d"], [⟨"d", "a.txt", true⟩, ⟨"d", "bad.txt", true⟩]⟩
                "d" "*").filter fun e =>
                (⟨[], [], 0, ["bad.txt"]⟩ : DriveState).uploadFail.contains
                  (basename (fullPath e))).map fullPath)) :=
  upload_directory_batch_counts
    ⟨⟨["d"], [⟨"d", "a.txt", true⟩, ⟨"d", "bad.txt", true⟩]⟩, true, "t", true⟩
    ⟨some ⟨"tok", true, false, none⟩, none, .absent, none, true,
     ⟨[], [], 0, ["bad.txt"]⟩⟩ ⟨"tok", true, false, none⟩ "d" "P" "sub" "*"
    rfl rfl rfl (by decide) (by decide) (by decide)
